import Mathlib

/-!
Shallow embedding of `src/exchanges/xtp.rs` from the `pixiu` repository:
an XTP exchange connector that merges two asynchronous event queues
(quote events and trader events), fans quote events out over a tokio
broadcast channel to spawned strategy tasks, and exposes a clonable
handle for market-data subscription.

External effects (the XTP SDK calls, tokio channels, task spawning) are
modelled by explicit state passing:
  * each SDK endpoint object records the sequence of calls made on it;
  * fallible SDK calls take an `SdkEnv` describing the outcome the
    external SDK returns;
  * Rust's `.unwrap()` on an `Err` aborts the process, modelled by an
    `Option` return where `none` is the panic;
  * a tokio `mpsc` receiver is modelled as the list of events pending
    in the queue, consumed from the front;
  * the tokio `broadcast` sender is modelled as a list of subscriber
    cursors, each with its pending buffer; `send` with no subscribers
    returns an error carrying the message back, as tokio does.
-/

/-- Modelled from the spec: `QuoteEvent` (file `quote_event.rs`, not under
`src/`) is an opaque, cloneable market-data event; its payload is
irrelevant to the connector logic, so events are identified by a token. -/
abbrev QuoteEvent := Nat

/-- Modelled from the spec: `TraderEvent` (file `trader_event.rs`, not
under `src/`) is an opaque order/execution notification token. -/
abbrev TraderEvent := Nat

/-- Modelled from the spec: a `Strategy` (trait in the crate root, not
under `src/`) is an opaque external collaborator; the connector treats
strategies opaquely, so a token suffices. -/
abbrev Strategy := Nat

/-- `std::net::SocketAddrV4`: an IPv4 address and a port. -/
structure SocketAddrV4 where
  ip : Nat
  port : Nat
deriving DecidableEq, Repr

/-- `xtp::XTPLogLevel` (external SDK enum). -/
inductive XTPLogLevel where
  | fatal | error | warning | info | debug | trace
deriving DecidableEq, Repr

/-- `xtp::XTPProtocolType` (external SDK enum). -/
inductive XTPProtocolType where
  | tcp | udp
deriving DecidableEq, Repr

/-- `xtp::XTPExchangeType` (external SDK enum selecting a market). -/
inductive XTPExchangeType where
  | sh | sz | unknown
deriving DecidableEq, Repr

/-- An error carried by `failure::Fallible`; its content is opaque. -/
structure XTPError where
  msg : String
deriving DecidableEq, Repr

/-- `failure::Fallible<A> = Result<A, failure::Error>`. -/
abbrev Fallible (α : Type) := Except XTPError α

/-- One call made on an SDK endpoint object, recorded in arrival order. -/
inductive ApiCall where
  | registerSpi
  | setHeartBeatInterval (secs : Nat)
  | setUDPBufferSize (size : Nat)
  | setSoftwareKey (key : String)
  | login (addr : SocketAddrV4) (user : String) (pass : String) (proto : XTPProtocolType)
  | subscribeMarketData (tickers : List String) (exchangeId : XTPExchangeType)
deriving DecidableEq, Repr

/-- Outcomes the external SDK returns for the fallible calls the
connector makes; the connector's behaviour is a function of these. -/
structure SdkEnv where
  quote_login : Fallible Unit
  set_key : Fallible Unit
  trader_login : Fallible Unit
  subscribe : List String → XTPExchangeType → Fallible Unit

/-- `xtp::QuoteApi`: an opaque, stateful SDK session object; the model
keeps its construction parameters and the log of calls made on it. -/
structure QuoteApi where
  clientId : Nat
  logPath : String
  logLevel : XTPLogLevel
  calls : List ApiCall
deriving DecidableEq, Repr

/-- `xtp::TraderApi`: the trading-session SDK object, same model. -/
structure TraderApi where
  clientId : Nat
  logPath : String
  logLevel : XTPLogLevel
  calls : List ApiCall
deriving DecidableEq, Repr

def QuoteApi.new (clientId : Nat) (logPath : String) (logLevel : XTPLogLevel) : QuoteApi :=
  { clientId := clientId, logPath := logPath, logLevel := logLevel, calls := [] }

/-- `qapi.register_spi(QSpi::new(tx))`: registers the adapter (file
`quotespi.rs`, not under `src/`) as the callback sink. -/
def QuoteApi.register_spi (q : QuoteApi) : QuoteApi :=
  { q with calls := q.calls ++ [.registerSpi] }

def QuoteApi.set_heart_beat_interval (q : QuoteApi) (secs : Nat) : QuoteApi :=
  { q with calls := q.calls ++ [.setHeartBeatInterval secs] }

def QuoteApi.set_udp_buffer_size (q : QuoteApi) (size : Nat) : QuoteApi :=
  { q with calls := q.calls ++ [.setUDPBufferSize size] }

/-- `qapi.login(...)`: returns the SDK's verdict and records the call. -/
def QuoteApi.login (q : QuoteApi) (addr : SocketAddrV4) (user : String) (pass : String)
    (proto : XTPProtocolType) (env : SdkEnv) : Fallible Unit × QuoteApi :=
  (env.quote_login, { q with calls := q.calls ++ [.login addr user pass proto] })

/-- `quote_api.subscribe_market_data(tickers, exchange_id)`: the SDK's
verdict on the subscription request, with the call recorded. -/
def QuoteApi.subscribe_market_data (q : QuoteApi) (tickers : List String)
    (exchangeId : XTPExchangeType) (env : SdkEnv) : Fallible Unit × QuoteApi :=
  (env.subscribe tickers exchangeId,
   { q with calls := q.calls ++ [.subscribeMarketData tickers exchangeId] })

def TraderApi.new (clientId : Nat) (logPath : String) (logLevel : XTPLogLevel) : TraderApi :=
  { clientId := clientId, logPath := logPath, logLevel := logLevel, calls := [] }

def TraderApi.register_spi (t : TraderApi) : TraderApi :=
  { t with calls := t.calls ++ [.registerSpi] }

def TraderApi.set_heart_beat_interval (t : TraderApi) (secs : Nat) : TraderApi :=
  { t with calls := t.calls ++ [.setHeartBeatInterval secs] }

/-- `tapi.set_software_key(&self.key)`: fallible SDK call. -/
def TraderApi.set_software_key (t : TraderApi) (key : String) (env : SdkEnv) :
    Fallible Unit × TraderApi :=
  (env.set_key, { t with calls := t.calls ++ [.setSoftwareKey key] })

def TraderApi.login (t : TraderApi) (addr : SocketAddrV4) (user : String) (pass : String)
    (proto : XTPProtocolType) (env : SdkEnv) : Fallible Unit × TraderApi :=
  (env.trader_login, { t with calls := t.calls ++ [.login addr user pass proto] })

/-- One subscriber of the tokio broadcast channel: its receiver id and
the buffer of messages sent since it subscribed and not yet consumed. -/
structure BroadcastReceiver where
  id : Nat
  buf : List QuoteEvent
deriving DecidableEq, Repr

/-- The `tokio::sync::broadcast::Sender<QuoteEvent>` side: channel
capacity, the next fresh receiver id, and the live subscribers. -/
structure BroadcastSender where
  capacity : Nat
  nextId : Nat
  subscribers : List BroadcastReceiver
deriving DecidableEq, Repr

/-- `broadcast::channel(cap)` returns a sender plus one initial
receiver (identified here by its id). -/
def broadcastChannel (cap : Nat) : BroadcastSender × Nat :=
  ({ capacity := cap, nextId := 1, subscribers := [{ id := 0, buf := [] }] }, 0)

/-- Dropping a broadcast receiver unregisters its cursor. -/
def BroadcastSender.dropReceiver (s : BroadcastSender) (rid : Nat) : BroadcastSender :=
  { s with subscribers := s.subscribers.filter (fun r => r.id ≠ rid) }

/-- `tx.subscribe()`: registers a fresh cursor (empty buffer, fresh id)
and returns its id. -/
def BroadcastSender.subscribe (s : BroadcastSender) : BroadcastSender × Nat :=
  ({ s with nextId := s.nextId + 1,
            subscribers := s.subscribers ++ [{ id := s.nextId, buf := [] }] },
   s.nextId)

/-- Delivery of one message into one subscriber's buffer; when the
buffer exceeds the channel capacity the oldest entry is dropped (the
subscriber lags), as tokio's ring buffer does. -/
def BroadcastReceiver.push (cap : Nat) (msg : QuoteEvent) (r : BroadcastReceiver) :
    BroadcastReceiver :=
  let b := r.buf ++ [msg]
  { r with buf := if cap < b.length then b.drop (b.length - cap) else b }

/-- `tx.send(msg)`: with no live subscribers tokio returns
`Err(SendError(msg))` and the channel is untouched; otherwise the
message is delivered to every current subscriber and the receiver
count is returned. -/
def BroadcastSender.send (s : BroadcastSender) (msg : QuoteEvent) :
    BroadcastSender × Except QuoteEvent Nat :=
  if s.subscribers.isEmpty then
    (s, .error msg)
  else
    ({ s with subscribers := s.subscribers.map (BroadcastReceiver.push s.capacity msg) },
     .ok s.subscribers.length)

/-- `struct XTPExchange` (src/exchanges/xtp.rs, lines 20–35). An
`mpsc::Receiver` is modelled as its list of pending events. -/
structure XTPExchange where
  quote_addr : SocketAddrV4
  trader_addr : SocketAddrV4
  username : String
  password : String
  key : String
  strategies : List Strategy
  quote_api : Option QuoteApi
  trader_api : Option TraderApi
  quote_rx : Option (List QuoteEvent)
  trader_rx : Option (List TraderEvent)
  strategy_tx : BroadcastSender

/-- `struct XTPExchangeHandle` (lines 37–41): shares the two endpoint
objects; `#[derive(Clone)]`, clones are indistinguishable. -/
structure XTPExchangeHandle where
  quote_api : QuoteApi
  trader_api : TraderApi
deriving DecidableEq, Repr

/-- `XTPExchangeHandle::new` (lines 44–49). -/
def XTPExchangeHandle.new (quote_api : QuoteApi) (trader_api : TraderApi) :
    XTPExchangeHandle :=
  { quote_api := quote_api, trader_api := trader_api }

/-- `XTPExchangeHandle::subscribe_market_data` (lines 51–57): the body is
exactly `self.quote_api.subscribe_market_data(tickers, exchange_id)`. -/
def XTPExchangeHandle.subscribe_market_data (h : XTPExchangeHandle)
    (tickers : List String) (exchangeId : XTPExchangeType) (env : SdkEnv) :
    Fallible Unit × XTPExchangeHandle :=
  let (r, q) := h.quote_api.subscribe_market_data tickers exchangeId env
  (r, { h with quote_api := q })

/-- `XTPExchange::new` (lines 61–83): `let (tx, _) = broadcast::channel(10);`
drops the initial receiver immediately. -/
def XTPExchange.new (quote_addr trader_addr : SocketAddrV4)
    (username password key : String) : XTPExchange :=
  let (tx, rx0) := broadcastChannel 10
  { quote_addr := quote_addr
    trader_addr := trader_addr
    username := username
    password := password
    key := key
    strategies := []
    quote_api := none
    trader_api := none
    quote_rx := none
    trader_rx := none
    strategy_tx := tx.dropReceiver rx0 }

/-- `XTPExchange::sys_init` (lines 85–117). A `none` result models a
process abort caused by `.unwrap()` on an `Err` from the SDK. -/
def XTPExchange.sys_init (ex : XTPExchange) (env : SdkEnv) : Option XTPExchange :=
  let qapi := QuoteApi.new 1 "/tmp/xtp" XTPLogLevel.trace
  let qrx : List QuoteEvent := []
  let qapi := qapi.register_spi
  let qapi := qapi.set_heart_beat_interval 10
  let qapi := qapi.set_udp_buffer_size 1024
  match qapi.login ex.quote_addr ex.username ex.password XTPProtocolType.tcp env with
  | (.error _, _) => none
  | (.ok _, qapi) =>
    let ex := { ex with quote_api := some qapi, quote_rx := some qrx }
    let tapi := TraderApi.new 1 "/tmp/xtp" XTPLogLevel.trace
    let trx : List TraderEvent := []
    let tapi := tapi.register_spi
    let tapi := tapi.set_heart_beat_interval 10
    -- MUST SET KEY FIRST! BEFORE LOGIN
    match tapi.set_software_key ex.key env with
    | (.error _, _) => none
    | (.ok _, tapi) =>
      match tapi.login ex.trader_addr ex.username ex.password XTPProtocolType.tcp env with
      | (.error _, _) => none
      | (.ok _, tapi) =>
        some { ex with trader_api := some tapi, trader_rx := some trx }

/-- `XTPExchange::handle` (lines 119–124): `self.quote_api.clone().unwrap()`
then `self.trader_api.clone().unwrap()`; `none` models the panic when an
endpoint has not been initialized. -/
def XTPExchange.handle (ex : XTPExchange) : Option XTPExchangeHandle :=
  match ex.quote_api, ex.trader_api with
  | some q, some t => some (XTPExchangeHandle.new q t)
  | _, _ => none

/-- `XTPExchange::register` (lines 154–159): `self.strategies.push(Box::new(s))`. -/
def XTPExchange.register (ex : XTPExchange) (s : Strategy) : XTPExchange :=
  { ex with strategies := ex.strategies ++ [s] }

/-- One spawned strategy task (line 137:
`tokio::spawn(s.run(self.strategy_tx.subscribe(), h.clone()))`): the
strategy, the id of its fresh broadcast subscription, and its handle
clone. -/
structure SpawnedTask where
  strategy : Strategy
  subscription : Nat
  handle : XTPExchangeHandle
deriving DecidableEq, Repr

/-- The spawn phase of `run` (lines 136–138): for each registered
strategy, in registration order, obtain a fresh broadcast subscription
and spawn the strategy's task with it and a handle clone. -/
def spawnTasks (strategies : List Strategy) (h : XTPExchangeHandle)
    (stx : BroadcastSender) : BroadcastSender × List SpawnedTask :=
  match strategies with
  | [] => (stx, [])
  | s :: rest =>
    let (stx1, rid) := stx.subscribe
    let (stx2, tasks) := spawnTasks rest h stx1
    (stx2, { strategy := s, subscription := rid, handle := h } :: tasks)

/-- The state carried by the merge loop of `run` (lines 140–151): the
two endpoint objects held alive through the handle, the two adapter
queues, the broadcast sender, and the set of spawned tasks. -/
structure RunState where
  quote_api : QuoteApi
  trader_api : TraderApi
  qrx : List QuoteEvent
  trx : List TraderEvent
  stx : BroadcastSender
  tasks : List SpawnedTask
deriving DecidableEq, Repr

/-- The quote branch of the `select!` (lines 146–148):
`Some(msg) = qrx.next() => { stx.send(msg); }` — the send's `Result` is
discarded. When the queue is empty the branch is not ready and the
state is unchanged. -/
def stepQuote (st : RunState) : RunState :=
  match st.qrx with
  | [] => st
  | msg :: rest =>
    let (stx, _) := st.stx.send msg
    { st with qrx := rest, stx := stx }

/-- The trader branch of the `select!` (line 149):
`_ = trx.next() => {}` — the event is dequeued and dropped. -/
def stepTrade (st : RunState) : RunState :=
  match st.trx with
  | [] => st
  | _ :: rest => { st with trx := rest }

/-- One iteration of the merge loop; the boolean is the scheduler's
tie-break between the two ready branches. -/
def loopStep (b : Bool) (st : RunState) : RunState :=
  if b then stepQuote st else stepTrade st

/-- Any finite number of merge-loop iterations under a schedule. -/
def loopSteps : List Bool → RunState → RunState
  | [], st => st
  | b :: sched, st => loopSteps sched (loopStep b st)

/-- The prefix of `XTPExchange::run` (lines 132–142): `sys_init`, obtain
the handle, spawn one task per registered strategy, unwrap the two
queues, and enter the loop. `none` models a panic of an `.unwrap()`. -/
def XTPExchange.runStart (ex : XTPExchange) (env : SdkEnv) : Option RunState :=
  match ex.sys_init env with
  | none => none
  | some ex1 =>
    match ex1.handle with
    | none => none
    | some h =>
      let (stx, tasks) := spawnTasks ex1.strategies h ex1.strategy_tx
      match ex1.quote_rx, ex1.trader_rx, ex1.quote_api, ex1.trader_api with
      | some qrx, some trx, some qa, some ta =>
        some { quote_api := qa, trader_api := ta, qrx := qrx, trx := trx,
               stx := stx, tasks := tasks }
      | _, _, _, _ => none

/-- The quote endpoint object as `sys_init` leaves it: constructed with
hard-coded client id 1, log path "/tmp/xtp" and Trace verbosity, and
carrying the calls made during initialization. -/
def initialQuoteApi (ex : XTPExchange) : QuoteApi :=
  { clientId := 1, logPath := "/tmp/xtp", logLevel := XTPLogLevel.trace,
    calls := [.registerSpi, .setHeartBeatInterval 10, .setUDPBufferSize 1024,
              .login ex.quote_addr ex.username ex.password XTPProtocolType.tcp] }

/-- The trade endpoint object as `sys_init` leaves it. -/
def initialTraderApi (ex : XTPExchange) : TraderApi :=
  { clientId := 1, logPath := "/tmp/xtp", logLevel := XTPLogLevel.trace,
    calls := [.registerSpi, .setHeartBeatInterval 10, .setSoftwareKey ex.key,
              .login ex.trader_addr ex.username ex.password XTPProtocolType.tcp] }

lemma sys_init_inv (ex : XTPExchange) (env : SdkEnv) (st : XTPExchange)
    (h : ex.sys_init env = some st) :
    st = { ex with quote_api := some (initialQuoteApi ex),
                   trader_api := some (initialTraderApi ex),
                   quote_rx := some [], trader_rx := some [] } := by
  unfold XTPExchange.sys_init at h
  simp only [QuoteApi.login, TraderApi.set_software_key, TraderApi.login,
    QuoteApi.new, QuoteApi.register_spi, QuoteApi.set_heart_beat_interval,
    QuoteApi.set_udp_buffer_size, TraderApi.new, TraderApi.register_spi,
    TraderApi.set_heart_beat_interval] at h
  cases hq : env.quote_login with
  | error e => rw [hq] at h; exact absurd h (by simp)
  | ok u =>
    rw [hq] at h
    cases hk : env.set_key with
    | error e => rw [hk] at h; exact absurd h (by simp)
    | ok v =>
      rw [hk] at h
      cases ht : env.trader_login with
      | error e => rw [ht] at h; exact absurd h (by simp)
      | ok w =>
        rw [ht] at h
        simp only [Option.some.injEq] at h
        subst h
        rfl

lemma spawnTasks_spec (strategies : List Strategy) (h : XTPExchangeHandle) :
    ∀ stx : BroadcastSender,
      (spawnTasks strategies h stx).2.map SpawnedTask.strategy = strategies ∧
      (spawnTasks strategies h stx).2.map SpawnedTask.subscription
          = List.range' stx.nextId strategies.length ∧
      (∀ t ∈ (spawnTasks strategies h stx).2, t.handle = h) ∧
      (spawnTasks strategies h stx).1.capacity = stx.capacity ∧
      (spawnTasks strategies h stx).1.nextId = stx.nextId + strategies.length ∧
      (spawnTasks strategies h stx).1.subscribers
          = stx.subscribers
            ++ (List.range' stx.nextId strategies.length).map
                 (fun i => { id := i, buf := [] }) := by
  induction strategies with
  | nil => intro stx; simp [spawnTasks]
  | cons s rest ih =>
    intro stx
    obtain ⟨h1, h2, h3, h4, h5, h6⟩ :=
      ih { stx with nextId := stx.nextId + 1,
                    subscribers := stx.subscribers ++ [{ id := stx.nextId, buf := [] }] }
    refine ⟨?_, ?_, ?_, ?_, ?_, ?_⟩ <;>
      simp only [spawnTasks, BroadcastSender.subscribe, List.map_cons, List.length_cons,
        List.range'_succ, List.mem_cons, forall_eq_or_imp, List.map_append] at *
    · rw [h1]
    · rw [h2]
    · exact ⟨trivial, h3⟩
    · exact h4
    · omega
    · rw [h6]; simp

lemma stepQuote_frame (st : RunState) :
    (stepQuote st).quote_api = st.quote_api ∧ (stepQuote st).trader_api = st.trader_api ∧
    (stepQuote st).trx = st.trx ∧ (stepQuote st).tasks = st.tasks := by
  unfold stepQuote
  cases hq : st.qrx with
  | nil => simp
  | cons m rest =>
    cases hs : st.stx.send m with
    | mk stx r => simp

lemma stepTrade_frame (st : RunState) :
    (stepTrade st).quote_api = st.quote_api ∧ (stepTrade st).trader_api = st.trader_api ∧
    (stepTrade st).qrx = st.qrx ∧ (stepTrade st).stx = st.stx ∧
    (stepTrade st).tasks = st.tasks := by
  unfold stepTrade
  cases ht : st.trx <;> simp

lemma loopSteps_frame (sched : List Bool) :
    ∀ st : RunState,
      (loopSteps sched st).quote_api = st.quote_api ∧
      (loopSteps sched st).trader_api = st.trader_api ∧
      (loopSteps sched st).tasks = st.tasks := by
  induction sched with
  | nil => intro st; exact ⟨rfl, rfl, rfl⟩
  | cons b sched ih =>
    intro st
    obtain ⟨i1, i2, i3⟩ := ih (loopStep b st)
    have hb : (loopStep b st).quote_api = st.quote_api ∧
        (loopStep b st).trader_api = st.trader_api ∧
        (loopStep b st).tasks = st.tasks := by
      cases b with
      | false =>
        obtain ⟨f1, f2, _, _, f5⟩ := stepTrade_frame st
        exact ⟨f1, f2, f5⟩
      | true =>
        obtain ⟨f1, f2, _, f4⟩ := stepQuote_frame st
        exact ⟨f1, f2, f4⟩
    exact ⟨by rw [loopSteps, i1, hb.1], by rw [loopSteps, i2, hb.2.1],
           by rw [loopSteps, i3, hb.2.2]⟩

/-- What one quote-branch iteration of the merge loop does, given that a
quote event `msg` is at the head of the adapter queue: the event is
dequeued; it is delivered to every current broadcast subscriber when
there is at least one; with zero subscribers the send returns the
`SendError` carrying the event, the error is discarded and the channel
is untouched; and nothing else in the loop state changes. -/
def stepQuoteSpec (st : RunState) (msg : QuoteEvent) (rest : List QuoteEvent) : Prop :=
  (stepQuote st).qrx = rest ∧
  (st.stx.subscribers ≠ [] →
    (stepQuote st).stx.subscribers
      = st.stx.subscribers.map (BroadcastReceiver.push st.stx.capacity msg)) ∧
  (st.stx.subscribers = [] →
    (stepQuote st).stx = st.stx ∧ (st.stx.send msg).2 = .error msg) ∧
  (stepQuote st).trx = st.trx ∧
  (stepQuote st).tasks = st.tasks ∧
  (stepQuote st).quote_api = st.quote_api ∧
  (stepQuote st).trader_api = st.trader_api

/-- C1: every quote event dequeued from the quote adapter queue is
published to the broadcast channel, and with zero live subscribers the
send error is silently ignored: the event is dropped and the loop
continues (the step is a total function on the loop state). -/
theorem quote_event_published_send_error_ignored (st : RunState) (msg : QuoteEvent)
    (rest : List QuoteEvent) (h : st.qrx = msg :: rest) : stepQuoteSpec st msg rest := by
  unfold stepQuoteSpec stepQuote
  rw [h]
  by_cases hs : st.stx.subscribers = []
  · simp [BroadcastSender.send, hs, List.isEmpty_iff]
  · simp [BroadcastSender.send, hs, List.isEmpty_iff]

/-- A concrete loop state with one pending quote event, one pending
trade event and no broadcast subscribers. -/
def runStateW : RunState :=
  { quote_api := QuoteApi.new 1 "/tmp/xtp" XTPLogLevel.trace,
    trader_api := TraderApi.new 1 "/tmp/xtp" XTPLogLevel.trace,
    qrx := [7], trx := [3],
    stx := { capacity := 10, nextId := 1, subscribers := [] },
    tasks := [] }

/-- Witness for C1 at the concrete state `runStateW`. -/
theorem quote_event_published_send_error_ignored_witness :
    runStateW.qrx = 7 :: [] ∧ stepQuoteSpec runStateW 7 [] :=
  ⟨rfl, quote_event_published_send_error_ignored runStateW 7 [] rfl⟩

/-- C4: a trade event dequeued from the trade adapter queue is
discarded: the resulting loop state is the old one with only the trade
queue advanced past the event — nothing is published on the broadcast
channel and no other component of the state changes. -/
theorem trade_event_discarded (st : RunState) (ev : TraderEvent)
    (rest : List TraderEvent) (h : st.trx = ev :: rest) :
    stepTrade st = { st with trx := rest } := by
  unfold stepTrade
  rw [h]

/-- Witness for C4 at the concrete state `runStateW`. -/
theorem trade_event_discarded_witness :
    runStateW.trx = 3 :: [] ∧ stepTrade runStateW = { runStateW with trx := [] } :=
  ⟨rfl, trade_event_discarded runStateW 3 [] rfl⟩

/-- C6: if the SDK reports a login failure for the quote endpoint or
for the trade endpoint, `sys_init` aborts the process (the `.unwrap()`
panic, modelled by `none`) instead of continuing half-initialized. -/
theorem login_failure_aborts_startup (ex : XTPExchange) (env : SdkEnv)
    (h : (∃ e, env.quote_login = .error e) ∨ (∃ e, env.trader_login = .error e)) :
    ex.sys_init env = none := by
  unfold XTPExchange.sys_init
  cases hq : env.quote_login with
  | error e => simp [QuoteApi.login, hq]
  | ok u =>
    rcases h with ⟨e, he⟩ | ⟨e, he⟩
    · rw [he] at hq; cases hq
    · cases hk : env.set_key with
      | error e2 => simp [QuoteApi.login, TraderApi.set_software_key, hq, hk]
      | ok v =>
        simp [QuoteApi.login, TraderApi.set_software_key, TraderApi.login, hq, hk, he]

/-- A concrete connector configuration. -/
def exW : XTPExchange :=
  XTPExchange.new { ip := 1111, port := 6001 } { ip := 2222, port := 6002 } "bob" "pw" "sk"

/-- An SDK environment in which every call succeeds. -/
def envOk : SdkEnv :=
  { quote_login := .ok (), set_key := .ok (), trader_login := .ok (),
    subscribe := fun _ _ => .ok () }

/-- An SDK environment in which the quote-endpoint login fails. -/
def envQuoteLoginFails : SdkEnv :=
  { envOk with quote_login := .error { msg := "bad credentials" } }

/-- Witness for C6: with a failing quote login, initialization of the
concrete connector `exW` aborts. -/
theorem login_failure_aborts_startup_witness :
    ((∃ e, envQuoteLoginFails.quote_login = .error e) ∨
      (∃ e, envQuoteLoginFails.trader_login = .error e)) ∧
    exW.sys_init envQuoteLoginFails = none :=
  ⟨Or.inl ⟨{ msg := "bad credentials" }, rfl⟩,
   login_failure_aborts_startup exW envQuoteLoginFails
     (Or.inl ⟨{ msg := "bad credentials" }, rfl⟩)⟩

def isLoginCall : ApiCall → Bool
  | .login _ _ _ _ => true
  | _ => false

def isSetSoftwareKeyCall : ApiCall → Bool
  | .setSoftwareKey _ => true
  | _ => false

/-- C3: in every successfully initialized connector, every login call
recorded on the trade endpoint is strictly preceded by a
set-software-key call on that endpoint. -/
theorem software_key_set_before_trade_login (ex : XTPExchange) (env : SdkEnv)
    (st : XTPExchange) (ta : TraderApi) (h : ex.sys_init env = some st)
    (hta : st.trader_api = some ta) :
    ∀ j : Fin ta.calls.length, isLoginCall (ta.calls.get j) = true →
      ∃ i : Fin ta.calls.length, (i : Nat) < (j : Nat) ∧
        isSetSoftwareKeyCall (ta.calls.get i) = true := by
  have hinv := sys_init_inv ex env st h
  subst hinv
  have hta' : ta = initialTraderApi ex := by
    have : some (initialTraderApi ex) = some ta := hta
    exact (Option.some.injEq _ _ ▸ this).symm
  subst hta'
  intro j hj
  unfold initialTraderApi at j hj ⊢
  fin_cases j
  · exact absurd hj (by simp [isLoginCall])
  · exact absurd hj (by simp [isLoginCall])
  · exact absurd hj (by simp [isLoginCall])
  · exact ⟨⟨2, by simp⟩, by simp, rfl⟩

/-- The connector state after a successful initialization of `exW`. -/
def sysInitW : XTPExchange := (exW.sys_init envOk).getD exW

/-- The trade endpoint object of `sysInitW`. -/
def traderApiW : TraderApi := initialTraderApi exW

/-- Witness for C3 on the concrete connector `exW` under `envOk`. -/
theorem software_key_set_before_trade_login_witness :
    exW.sys_init envOk = some sysInitW ∧ sysInitW.trader_api = some traderApiW ∧
    (∀ j : Fin traderApiW.calls.length, isLoginCall (traderApiW.calls.get j) = true →
      ∃ i : Fin traderApiW.calls.length, (i : Nat) < (j : Nat) ∧
        isSetSoftwareKeyCall (traderApiW.calls.get i) = true) :=
  ⟨rfl, rfl, software_key_set_before_trade_login exW envOk sysInitW traderApiW rfl rfl⟩

/-- C5 counterexample: on a freshly constructed, never-initialized
connector, obtaining the handle through which `subscribe_market_data`
is called hits `self.quote_api.clone().unwrap()` on `None`, i.e. a
panic (modelled by `none`) — not a typed `EndpointNotReady` error (no
such error value exists anywhere in the code). -/
theorem subscribe_before_init_panics_cex :
    (XTPExchange.new { ip := 0, port := 0 } { ip := 0, port := 0 } "u" "p" "k").handle
      = none := rfl

/-- C5 amended: before initialization (either endpoint still absent),
the only route to `subscribe_market_data` — obtaining the connector's
handle — panics on `.unwrap()` of the missing endpoint; the code has no
typed `EndpointNotReady` error. -/
theorem handle_before_init_panics (ex : XTPExchange)
    (h : ex.quote_api = none ∨ ex.trader_api = none) : ex.handle = none := by
  unfold XTPExchange.handle
  cases hq : ex.quote_api with
  | none => cases ht : ex.trader_api <;> rfl
  | some q =>
    cases ht : ex.trader_api with
    | none => rfl
    | some t => rw [hq, ht] at h; rcases h with h | h <;> cases h

/-- Witness for the amended C5: the fresh connector `exW` has no quote
endpoint yet, and its handle panics. -/
theorem handle_before_init_panics_witness :
    (exW.quote_api = none ∨ exW.trader_api = none) ∧ exW.handle = none :=
  ⟨Or.inl rfl, handle_before_init_panics exW (Or.inl rfl)⟩

/-- Modelled from the spec: "forwards directly to the quote endpoint" —
the result the spec prescribes for the handle's `subscribe_market_data`
is precisely the quote endpoint's own verdict on the request. -/
def specSubscribeMarketData (h : XTPExchangeHandle) (tickers : List String)
    (exchangeId : XTPExchangeType) (env : SdkEnv) : Fallible Unit :=
  (h.quote_api.subscribe_market_data tickers exchangeId env).1

/-- C9: for every tickers list and exchange selector, the handle's
`subscribe_market_data` is an exact pass-through to the quote
endpoint: its result is precisely the endpoint's verdict (success iff
the SDK accepts), the only effect is the one recorded subscription call
on the quote endpoint, and the trade endpoint is never touched. -/
theorem handle_subscribe_is_pass_through (h : XTPExchangeHandle) (tickers : List String)
    (exchangeId : XTPExchangeType) (env : SdkEnv) :
    (h.subscribe_market_data tickers exchangeId env).1
        = specSubscribeMarketData h tickers exchangeId env ∧
    (h.subscribe_market_data tickers exchangeId env).1 = env.subscribe tickers exchangeId ∧
    (h.subscribe_market_data tickers exchangeId env).2.trader_api = h.trader_api ∧
    (h.subscribe_market_data tickers exchangeId env).2.quote_api.calls
        = h.quote_api.calls ++ [.subscribeMarketData tickers exchangeId] ∧
    (h.subscribe_market_data tickers exchangeId env).2.quote_api.clientId
        = h.quote_api.clientId ∧
    (h.subscribe_market_data tickers exchangeId env).2.quote_api.logPath
        = h.quote_api.logPath ∧
    (h.subscribe_market_data tickers exchangeId env).2.quote_api.logLevel
        = h.quote_api.logLevel :=
  ⟨rfl, rfl, rfl, rfl, rfl, rfl, rfl⟩

/-- C10: `register` always succeeds, appends exactly the one strategy
at the end of the registered list (the order in which `run` later
spawns tasks), and leaves every other connector field unchanged. -/
theorem register_appends_strategy_only (ex : XTPExchange) (s : Strategy)
    (hdl : XTPExchangeHandle) (stx : BroadcastSender) :
    (ex.register s).strategies = ex.strategies ++ [s] ∧
    (ex.register s).quote_addr = ex.quote_addr ∧
    (ex.register s).trader_addr = ex.trader_addr ∧
    (ex.register s).username = ex.username ∧
    (ex.register s).password = ex.password ∧
    (ex.register s).key = ex.key ∧
    (ex.register s).quote_api = ex.quote_api ∧
    (ex.register s).trader_api = ex.trader_api ∧
    (ex.register s).quote_rx = ex.quote_rx ∧
    (ex.register s).trader_rx = ex.trader_rx ∧
    (ex.register s).strategy_tx = ex.strategy_tx ∧
    (spawnTasks (ex.register s).strategies hdl stx).2.map SpawnedTask.strategy
        = ex.strategies ++ [s] :=
  ⟨rfl, rfl, rfl, rfl, rfl, rfl, rfl, rfl, rfl, rfl, rfl,
   (spawnTasks_spec (ex.strategies ++ [s]) hdl stx).1⟩

/-- The handle `run` obtains right after initialization. -/
def initialHandle (ex : XTPExchange) : XTPExchangeHandle :=
  XTPExchangeHandle.new (initialQuoteApi ex) (initialTraderApi ex)

lemma runStart_inv (ex : XTPExchange) (env : SdkEnv) (st0 : RunState)
    (h : ex.runStart env = some st0) :
    st0.quote_api = initialQuoteApi ex ∧
    st0.trader_api = initialTraderApi ex ∧
    st0.qrx = [] ∧ st0.trx = [] ∧
    st0.stx = (spawnTasks ex.strategies (initialHandle ex) ex.strategy_tx).1 ∧
    st0.tasks = (spawnTasks ex.strategies (initialHandle ex) ex.strategy_tx).2 := by
  unfold XTPExchange.runStart at h
  cases hs : ex.sys_init env with
  | none => rw [hs] at h; cases h
  | some ex1 =>
    rw [hs] at h
    have hinv := sys_init_inv ex env ex1 hs
    subst hinv
    simp only [XTPExchange.handle, initialHandle] at h ⊢
    rcases hsp : spawnTasks ex.strategies
        (XTPExchangeHandle.new (initialQuoteApi ex) (initialTraderApi ex))
        ex.strategy_tx with ⟨stx, tasks⟩
    rw [hsp] at h
    simp only [Option.some.injEq] at h
    subst h
    simp [hsp]

/-- What the spawn phase of `run` guarantees: one task per registered
strategy, in registration order; each task holds its own fresh
broadcast subscription (pairwise-distinct cursor ids, each registered
with an empty buffer in the sender the loop keeps) and its own clone of
the one handle obtained after initialization. -/
def runSpawnSpec (ex : XTPExchange) (st0 : RunState) : Prop :=
  st0.tasks.length = ex.strategies.length ∧
  st0.tasks.map SpawnedTask.strategy = ex.strategies ∧
  (st0.tasks.map SpawnedTask.subscription).Nodup ∧
  (∀ t ∈ st0.tasks, ∃ r ∈ st0.stx.subscribers, r.id = t.subscription ∧ r.buf = []) ∧
  (∀ t ∈ st0.tasks, t.handle = initialHandle ex)

/-- C2: for K registered strategies, `run` spawns exactly K tasks, one
per strategy, each with its own fresh broadcast subscription and its
own handle clone. -/
theorem run_spawns_one_task_per_strategy (ex : XTPExchange) (env : SdkEnv)
    (st0 : RunState) (h : ex.runStart env = some st0) : runSpawnSpec ex st0 := by
  obtain ⟨-, -, -, -, hstx, htasks⟩ := runStart_inv ex env st0 h
  obtain ⟨m1, m2, m3, -, -, m6⟩ :=
    spawnTasks_spec ex.strategies (initialHandle ex) ex.strategy_tx
  refine ⟨?_, ?_, ?_, ?_, ?_⟩
  · rw [htasks, ← List.length_map (f := SpawnedTask.strategy), m1]
  · rw [htasks, m1]
  · rw [htasks, m2]
    exact List.nodup_range' _ _ 1 (by omega)
  · intro t ht
    rw [htasks] at ht
    have hsub : t.subscription ∈ List.range' ex.strategy_tx.nextId ex.strategies.length := by
      rw [← m2]
      exact List.mem_map_of_mem SpawnedTask.subscription ht
    refine ⟨{ id := t.subscription, buf := [] }, ?_, rfl, rfl⟩
    rw [hstx, m6]
    exact List.mem_append_right _ (List.mem_map_of_mem _ hsub)
  · intro t ht
    rw [htasks] at ht
    exact m3 t ht

/-- The concrete connector `exW` with two strategies registered. -/
def exW2 : XTPExchange := (exW.register 100).register 200

/-- The loop state reached by `run` on `exW2` under `envOk`. -/
def runStartW : RunState := (exW2.runStart envOk).getD runStateW

/-- Witness for C2: running the concrete two-strategy connector spawns
exactly two tasks with distinct fresh subscriptions. -/
theorem run_spawns_one_task_per_strategy_witness :
    exW2.runStart envOk = some runStartW ∧ runSpawnSpec exW2 runStartW :=
  ⟨rfl, run_spawns_one_task_per_strategy exW2 envOk runStartW rfl⟩

/-- One thing that can happen to the running connector: an upstream
event arrives on one of the adapter queues, or the merge loop runs one
iteration (the boolean is the `select!` tie-break). -/
inductive RunOp where
  | quoteArrives (e : QuoteEvent)
  | tradeArrives (e : TraderEvent)
  | iterate (b : Bool)

/-- Modelled from the spec: the endpoint adapters (`quotespi.rs` and
`traderspi.rs`, not under `src/`) enqueue exactly one typed event per
upstream callback, in arrival order, at the tail of their queue;
`iterate` is a source-translated merge-loop iteration (`loopStep`). -/
def applyOp : RunOp → RunState → RunState
  | .quoteArrives e, st => { st with qrx := st.qrx ++ [e] }
  | .tradeArrives e, st => { st with trx := st.trx ++ [e] }
  | .iterate b, st => loopStep b st

/-- A finite interleaving of event arrivals and merge-loop iterations. -/
def runTrace : List RunOp → RunState → RunState
  | [], st => st
  | op :: ops, st => runTrace ops (applyOp op st)

lemma runTrace_frame (ops : List RunOp) :
    ∀ st : RunState,
      (runTrace ops st).quote_api = st.quote_api ∧
      (runTrace ops st).trader_api = st.trader_api ∧
      (runTrace ops st).tasks = st.tasks := by
  induction ops with
  | nil => intro st; exact ⟨rfl, rfl, rfl⟩
  | cons op ops ih =>
    intro st
    obtain ⟨i1, i2, i3⟩ := ih (applyOp op st)
    have hop : (applyOp op st).quote_api = st.quote_api ∧
        (applyOp op st).trader_api = st.trader_api ∧
        (applyOp op st).tasks = st.tasks := by
      cases op with
      | quoteArrives e => exact ⟨rfl, rfl, rfl⟩
      | tradeArrives e => exact ⟨rfl, rfl, rfl⟩
      | iterate b =>
        cases b with
        | false =>
          obtain ⟨f1, f2, _, _, f5⟩ := stepTrade_frame st
          exact ⟨f1, f2, f5⟩
        | true =>
          obtain ⟨f1, f2, _, f4⟩ := stepQuote_frame st
          exact ⟨f1, f2, f4⟩
    exact ⟨by rw [runTrace, i1, hop.1], by rw [runTrace, i2, hop.2.1],
           by rw [runTrace, i3, hop.2.2]⟩

/-- What C7 asserts of the running connector: across any finite
interleaving of event arrivals and merge-loop iterations — including
iterations that actually process a pending quote or trade event — the
endpoint objects and the spawned task set are exactly those fixed when
`run` began: the endpoints are the ones built once by `sys_init` and
the tasks come one-for-one from the strategies registered before `run`
(nothing registered later can appear). -/
def runFrozenSpec (ex : XTPExchange) (st0 : RunState) (ops : List RunOp) : Prop :=
  (runTrace ops st0).quote_api = st0.quote_api ∧
  (runTrace ops st0).trader_api = st0.trader_api ∧
  (runTrace ops st0).tasks = st0.tasks ∧
  st0.quote_api = initialQuoteApi ex ∧
  st0.trader_api = initialTraderApi ex ∧
  st0.tasks.map SpawnedTask.strategy = ex.strategies

/-- C7: once `run` begins, the registered-strategy set driving the
spawned tasks is fixed, and the quote and trade endpoints are
initialized exactly once and never replaced or mutated for the rest of
the connector's lifetime, whatever events arrive and get processed. -/
theorem endpoints_initialized_once_then_frozen (ex : XTPExchange) (env : SdkEnv)
    (st0 : RunState) (ops : List RunOp) (h : ex.runStart env = some st0) :
    runFrozenSpec ex st0 ops := by
  obtain ⟨hq, ht, -, -, -, htasks⟩ := runStart_inv ex env st0 h
  obtain ⟨f1, f2, f3⟩ := runTrace_frame ops st0
  refine ⟨f1, f2, f3, hq, ht, ?_⟩
  rw [htasks]
  exact (spawnTasks_spec ex.strategies (initialHandle ex) ex.strategy_tx).1

/-- Witness for C7 on the concrete running connector, under a trace in
which a quote event and a trade event arrive and both are processed by
the loop (the quote iteration delivers to the two live subscribers,
the trade iteration discards its event), plus an idle iteration. -/
theorem endpoints_initialized_once_then_frozen_witness :
    exW2.runStart envOk = some runStartW ∧
    runFrozenSpec exW2 runStartW
      [.quoteArrives 5, .tradeArrives 9, .iterate true, .iterate false, .iterate true] :=
  ⟨rfl, endpoints_initialized_once_then_frozen exW2 envOk runStartW
    [.quoteArrives 5, .tradeArrives 9, .iterate true, .iterate false, .iterate true] rfl⟩

/-- What initialization actually does with configuration: the two
network addresses, username, password and software key supplied at
construction are the values used in the recorded login/key calls,
while the log directory, log verbosity, heartbeat interval and
transport buffer size are hard-coded constants of `sys_init`
("/tmp/xtp", Trace, 10 and 1024). -/
def sysInitConfigSpec (ex st : XTPExchange) : Prop :=
  ∃ qa ta, st.quote_api = some qa ∧ st.trader_api = some ta ∧
    qa.calls = [.registerSpi, .setHeartBeatInterval 10, .setUDPBufferSize 1024,
                .login ex.quote_addr ex.username ex.password .tcp] ∧
    ta.calls = [.registerSpi, .setHeartBeatInterval 10, .setSoftwareKey ex.key,
                .login ex.trader_addr ex.username ex.password .tcp] ∧
    qa.logPath = "/tmp/xtp" ∧ qa.logLevel = .trace ∧
    ta.logPath = "/tmp/xtp" ∧ ta.logLevel = .trace

/-- C8 amended: initialization uses the supplied endpoint addresses,
username, password and software key, but the log directory, log
verbosity, heartbeat interval and transport buffer size are fixed
inside `sys_init`, not construction parameters. -/
theorem sys_init_uses_supplied_credentials_fixed_tuning (ex : XTPExchange)
    (env : SdkEnv) (st : XTPExchange) (h : ex.sys_init env = some st) :
    sysInitConfigSpec ex st := by
  have hinv := sys_init_inv ex env st h
  subst hinv
  exact ⟨initialQuoteApi ex, initialTraderApi ex,
         rfl, rfl, rfl, rfl, rfl, rfl, rfl, rfl⟩

/-- Witness for the amended C8 at the concrete connector `exW`. -/
theorem sys_init_uses_supplied_credentials_fixed_tuning_witness :
    exW.sys_init envOk = some sysInitW ∧ sysInitConfigSpec exW sysInitW :=
  ⟨rfl, sys_init_uses_supplied_credentials_fixed_tuning exW envOk sysInitW rfl⟩

/-- A second concrete connector differing from `exW` in every
construction parameter. -/
def exV : XTPExchange :=
  XTPExchange.new { ip := 3333, port := 7001 } { ip := 4444, port := 7002 }
    "alice" "qw" "tk"

/-- The connector state after a successful initialization of `exV`. -/
def sysInitV : XTPExchange := (exV.sys_init envOk).getD exV

/-- The log directory and verbosity of an initialized connector's two
endpoints. -/
def initLogConfig (st : XTPExchange) :
    Option ((String × XTPLogLevel) × (String × XTPLogLevel)) :=
  match st.quote_api, st.trader_api with
  | some qa, some ta => some ((qa.logPath, qa.logLevel), (ta.logPath, ta.logLevel))
  | _, _ => none

def isTuningCall : ApiCall → Bool
  | .setHeartBeatInterval _ => true
  | .setUDPBufferSize _ => true
  | _ => false

/-- The heartbeat-interval and buffer-size calls initialization made on
the two endpoints of an initialized connector. -/
def initTuningCalls (st : XTPExchange) : Option (List ApiCall × List ApiCall) :=
  match st.quote_api, st.trader_api with
  | some qa, some ta => some (qa.calls.filter isTuningCall, ta.calls.filter isTuningCall)
  | _, _ => none

/-- C8 counterexample: `exW` and `exV` are constructed with different
values of every construction parameter the code accepts, yet their
initializations produce endpoints with identical log directory, log
verbosity, heartbeat interval and transport buffer size — these are
hard-coded in `sys_init` ("/tmp/xtp", Trace, 10, 1024), refuting the
claim that all of the listed configuration is passed in at
construction/initialization time and that initialization uses
respective supplied values for it. -/
theorem config_fixed_in_core_cex :
    (exW.quote_addr ≠ exV.quote_addr ∧ exW.trader_addr ≠ exV.trader_addr ∧
     exW.username ≠ exV.username ∧ exW.password ≠ exV.password ∧ exW.key ≠ exV.key) ∧
    exW.sys_init envOk = some sysInitW ∧ exV.sys_init envOk = some sysInitV ∧
    initLogConfig sysInitW = initLogConfig sysInitV ∧
    initTuningCalls sysInitW = initTuningCalls sysInitV ∧
    initLogConfig sysInitW
      = some (("/tmp/xtp", XTPLogLevel.trace), ("/tmp/xtp", XTPLogLevel.trace)) ∧
    initTuningCalls sysInitW
      = some ([.setHeartBeatInterval 10, .setUDPBufferSize 1024],
              [.setHeartBeatInterval 10]) :=
  ⟨⟨by decide, by decide, by decide, by decide, by decide⟩,
   rfl, rfl, rfl, rfl, rfl, rfl⟩
